import Mathlib

/-!
Shallow embedding of `src/cascaded.py` from the `quadsim` repository: a cascaded
flight controller for a quadrotor-class vehicle.  Vectors are embedded as triples
of real numbers, scipy rotations as 3×3 matrices stored by columns, and both
controller classes as structures whose `response` methods are translated line by
line.  Collaborators that live in the repository but outside `src/`
(`quadsim.control.torque_from_aa`, `quadsim.flatness.get_xdot_xddot`) are modelled
from the specification, as marked in their doc comments.
-/

namespace Quadsim

noncomputable section

/-- A 3-vector of reals (a numpy array of length 3). -/
@[ext]
structure Vec3 where
  x : ℝ
  y : ℝ
  z : ℝ

namespace Vec3

instance : Zero Vec3 := ⟨⟨0, 0, 0⟩⟩

instance : Add Vec3 := ⟨fun a b => ⟨a.x + b.x, a.y + b.y, a.z + b.z⟩⟩

instance : Neg Vec3 := ⟨fun a => ⟨-a.x, -a.y, -a.z⟩⟩

instance : Sub Vec3 := ⟨fun a b => ⟨a.x - b.x, a.y - b.y, a.z - b.z⟩⟩

instance : SMul ℝ Vec3 := ⟨fun c a => ⟨c * a.x, c * a.y, c * a.z⟩⟩

/-- numpy `a.dot(b)` for 3-vectors. -/
def dot (a b : Vec3) : ℝ := a.x * b.x + a.y * b.y + a.z * b.z

/-- numpy `np.cross(a, b)` for 3-vectors. -/
def cross (a b : Vec3) : Vec3 :=
  ⟨a.y * b.z - a.z * b.y, a.z * b.x - a.x * b.z, a.x * b.y - a.y * b.x⟩

/-- numpy `np.linalg.norm(a)`: the Euclidean norm. -/
def norm (a : Vec3) : ℝ := Real.sqrt (dot a a)

/-- numpy componentwise division of a vector by a scalar, `v / s`. -/
def divScalar (a : Vec3) (s : ℝ) : Vec3 := ⟨a.x / s, a.y / s, a.z / s⟩

end Vec3

/-- Modelled from the spec: `normalized` is imported from `python_utils.mathu`
(outside this repository); per §4.1 and §8 it returns `z / np.linalg.norm(z)`. -/
def normalized (v : Vec3) : Vec3 := Vec3.divScalar v v.norm

/-- Modelled from the spec: `e1` from `python_utils.mathu`, the world x-axis. -/
def e1 : Vec3 := ⟨1, 0, 0⟩

/-- Modelled from the spec: `e2` from `python_utils.mathu`, the world y-axis. -/
def e2 : Vec3 := ⟨0, 1, 0⟩

/-- Modelled from the spec: `e3` from `python_utils.mathu`, the world z-axis. -/
def e3 : Vec3 := ⟨0, 0, 1⟩

/-- A 3×3 real matrix, stored by rows (a numpy 3×3 array). -/
@[ext]
structure Mat3 where
  r0 : Vec3
  r1 : Vec3
  r2 : Vec3

namespace Mat3

/-- numpy `m.dot(v)`: matrix–vector product. -/
def mulVec (m : Mat3) (v : Vec3) : Vec3 := ⟨m.r0.dot v, m.r1.dot v, m.r2.dot v⟩

/-- numpy `np.eye(3)`. -/
def eye : Mat3 := ⟨⟨1, 0, 0⟩, ⟨0, 1, 0⟩, ⟨0, 0, 1⟩⟩

instance : SMul ℝ Mat3 := ⟨fun c m => ⟨c • m.r0, c • m.r1, c • m.r2⟩⟩

/-- numpy assignment `m[2, 2] = a`. -/
def set22 (m : Mat3) (a : ℝ) : Mat3 := ⟨m.r0, m.r1, ⟨m.r2.x, m.r2.y, a⟩⟩

/-- The diagonal matrix with diagonal `(a, b, c)`. -/
def diag (a b c : ℝ) : Mat3 := ⟨⟨a, 0, 0⟩, ⟨0, b, 0⟩, ⟨0, 0, c⟩⟩

/-- The zero 3×3 matrix. -/
def zero : Mat3 := ⟨0, 0, 0⟩

end Mat3

/-- A scipy `Rotation`, represented by its rotation matrix stored as three
columns; `R.from_matrix(np.column_stack((x_b, y_b, z_b)))` builds the rotation
whose matrix has those columns. -/
@[ext]
structure Rot where
  colx : Vec3
  coly : Vec3
  colz : Vec3

namespace Rot

/-- scipy `rot.apply(v)`: multiply the rotation matrix by the vector `v`. -/
def apply (r : Rot) (v : Vec3) : Vec3 := v.x • r.colx + v.y • r.coly + v.z • r.colz

/-- scipy `rot.inv()`: for a rotation matrix the inverse is the transpose. -/
def inv (r : Rot) : Rot :=
  ⟨⟨r.colx.x, r.coly.x, r.colz.x⟩, ⟨r.colx.y, r.coly.y, r.colz.y⟩,
    ⟨r.colx.z, r.coly.z, r.colz.z⟩⟩

/-- The identity rotation. -/
def id : Rot := ⟨⟨1, 0, 0⟩, ⟨0, 1, 0⟩, ⟨0, 0, 1⟩⟩

end Rot

/-- `det [c1 | c2 | c3]` of the matrix with the given columns, as the scalar
triple product. -/
def det3 (c1 c2 c3 : Vec3) : ℝ := c1.dot (c2.cross c3)

/-- The vehicle state snapshot passed to `response` (§3 VehicleState). -/
structure State where
  pos : Vec3
  vel : Vec3
  rot : Rot
  ang : Vec3

/-- Vehicle physical parameters (§3 Model): mass, gravity `g`, inertia `I`. -/
structure Model where
  mass : ℝ
  g : ℝ
  I : Mat3

/-- The reference-trajectory oracle (§3 Reference, §6). -/
structure RefTraj where
  pos : ℝ → Vec3
  vel : ℝ → Vec3
  acc : ℝ → Vec3
  jerk : ℝ → Vec3
  snap : ℝ → Vec3
  yaw : ℝ → ℝ
  yawvel : ℝ → ℝ
  yawacc : ℝ → ℝ

/-- The output command (§3): collective thrust along body z, and body torque.
`Controller.out(thrust, torque)` from the base class is its constructor. -/
structure Command where
  thrust : ℝ
  torque : Vec3

/-- `thrust_project_z(accel_des, rot)`, cascaded.py lines 12–14. -/
def thrust_project_z (accel_des : Vec3) (rot : Rot) : ℝ :=
  accel_des.dot (rot.apply e3)

/-- `thrust_norm_accel(accel_des, rot)`, cascaded.py lines 16–17. -/
def thrust_norm_accel (accel_des : Vec3) (rot : Rot) : ℝ :=
  accel_des.norm

/-- Modelled from the spec: `thrust_maintain_z` (cascaded.py lines 19–21) reads
the free name `z_w`, which is neither defined in `cascaded.py` nor among its
imports, so in the source every call raises `NameError`; the spec (§4.1) intends
the world z-axis `e3` there, which is what this definition uses. -/
def thrust_maintain_z (accel_des : Vec3) (rot : Rot) : ℝ :=
  let z_b := rot.apply e3
  accel_des.dot e3 / z_b.dot e3

/-- `rot_from_z_yaw_zyx(z, yaw)`, cascaded.py lines 23–31. -/
def rot_from_z_yaw_zyx (z : Vec3) (yaw : ℝ) : Rot :=
  let z' := normalized z
  let y_c : Vec3 := ⟨-Real.sin yaw, Real.cos yaw, 0⟩
  let x_b := normalized (y_c.cross z')
  let y_b := z'.cross x_b
  ⟨x_b, y_b, z'⟩

/-- `rot_from_z_yaw_zxy(z, yaw)`, cascaded.py lines 33–41. -/
def rot_from_z_yaw_zxy (z : Vec3) (yaw : ℝ) : Rot :=
  let z' := normalized z
  let x_c : Vec3 := ⟨Real.cos yaw, Real.sin yaw, 0⟩
  let y_b := normalized (z'.cross x_c)
  let x_b := y_b.cross z'
  ⟨x_b, y_b, z'⟩

/-- Modelled from the spec: `torque_from_aa` from `quadsim.control` is part of
the repository but not under `src/`; §4.3 step 4 specifies it as the rigid-body
torque `τ = I·α + ω × (I·ω)`. -/
def torque_from_aa (angaccel : Vec3) (inertia : Mat3) (ang : Vec3) : Vec3 :=
  inertia.mulVec angaccel + ang.cross (inertia.mulVec ang)

/-- Modelled from the spec: the type of `get_xdot_xddot` from `quadsim.flatness`,
part of the repository but not under `src/`.  Per §4.2 step 5 it maps
`(yaw_rate_des, yaw_accel_des, x_b, z_b, zdot_des, zddot_des)` to the first and
second time derivatives `(xdot, xddot)` of the desired body x-axis; the spec
gives its behaviour only descriptively, so the embedding passes it around as a
parameter. -/
def XdotFun : Type := ℝ → ℝ → Vec3 → Vec3 → Vec3 → Vec3 → Vec3 × Vec3

/-- cascaded.py line 84 (= line 193): `zdotdes = (1 / u) * (jerkdes - udot * z_b)`
with `udot = jerkdes.dot(z_b)` (line 83 = 192). -/
def zdotdes (u : ℝ) (jerkdes z_b : Vec3) : Vec3 :=
  let udot := jerkdes.dot z_b
  (1 / u) • (jerkdes - udot • z_b)

/-- cascaded.py line 86 (= line 195):
`zddotdes = (1 / u) * (snapdes - 2 * udot * zdotdes - uddot * z_b)` with
`uddot = snapdes.dot(z_b) + u * zdotdes.dot(zdotdes)` (line 85 = 194). -/
def zddotdes (u : ℝ) (jerkdes snapdes z_b : Vec3) : Vec3 :=
  let udot := jerkdes.dot z_b
  let zd := zdotdes u jerkdes z_b
  let uddot := snapdes.dot z_b + u * zd.dot zd
  (1 / u) • (snapdes - (2 * udot) • zd - uddot • z_b)

/-- cascaded.py lines 82–118, which are repeated verbatim as lines 191–225 of
`CascadedControllerLearnAccel.response`: the flatness inversion, attitude loop,
and command assembly, shared by both controllers.  `gxx` is the
`get_xdot_xddot` collaborator. -/
def flatness_inner (gxx : XdotFun) (Krot Kang : Mat3) (rot_metric : Rot → Rot → Vec3)
    (u_f : Vec3 → Rot → ℝ) (model : Model) (accel_des jerkdes snapdes : Vec3)
    (yawveldes yawaccdes : ℝ) (z_b x_b y_b : Vec3) (rot_des : Rot)
    (state : State) : Command :=
  let u := u_f accel_des state.rot
  let zdotdes_v := zdotdes u jerkdes z_b
  let zddotdes_v := zddotdes u jerkdes snapdes z_b
  let angveldesxy_w := z_b.cross zdotdes_v
  let angaccdesxy_w := z_b.cross (zddotdes_v - angveldesxy_w.cross zdotdes_v)
  let xp := gxx yawveldes yawaccdes x_b z_b zdotdes_v zddotdes_v
  let xdot := xp.1
  let xddot := xp.2
  let omega_z_bdes := xdot.dot y_b
  let angveldesxy_bdes := rot_des.inv.apply angveldesxy_w
  let angveldes_bdes : Vec3 := ⟨angveldesxy_bdes.x, angveldesxy_bdes.y, omega_z_bdes⟩
  let angveldes_w := rot_des.apply angveldes_bdes
  let alpha_cross_x := xddot - angveldes_w.cross xdot
  let alpha_z_bdes := alpha_cross_x.dot y_b
  let angaccdesxy_bdes := rot_des.inv.apply angaccdesxy_w
  let angaccdes_bdes : Vec3 := ⟨angaccdesxy_bdes.x, angaccdesxy_bdes.y, alpha_z_bdes⟩
  let angveldes_b := state.rot.inv.apply angveldes_w
  let angaccdes_b := state.rot.inv.apply (rot_des.apply angaccdes_bdes)
  let rot_error := rot_metric state.rot rot_des
  let angaccel := -(Krot.mulVec rot_error) - Kang.mulVec (state.ang - angveldes_b) + angaccdes_b
  let bodyz_force := model.mass * u
  let torque := torque_from_aa angaccel model.I state.ang
  ⟨bodyz_force, torque⟩

/-- The cascaded controller (cascaded.py lines 43–118).  The base `Controller`
class supplies the reference-trajectory slot `ref`; the pluggable rotation
metric and thrust policy are the constructor arguments `rot_metric` and `u_f`. -/
structure CascadedController where
  Kpos : Mat3
  Kvel : Mat3
  Krot : Mat3
  Kang : Mat3
  gvec : Vec3
  rot_metric : Rot → Rot → Vec3
  u_f : Vec3 → Rot → ℝ
  model : Model
  ref : RefTraj

/-- `CascadedController.__init__` (cascaded.py lines 44–60), with the base
class's reference slot filled by `ref`. -/
def CascadedController.init (model : Model) (rot_metric : Rot → Rot → Vec3)
    (u_f : Vec3 → Rot → ℝ) (ref : RefTraj) : CascadedController :=
  ⟨(6 : ℝ) • Mat3.eye, (4 : ℝ) • Mat3.eye,
    Mat3.set22 ((120 : ℝ) • Mat3.eye) 30, Mat3.set22 ((16 : ℝ) • Mat3.eye) 10,
    ⟨0, 0, -model.g⟩, rot_metric, u_f, model, ref⟩

/-- cascaded.py lines 64–66: the position loop of `CascadedController.response`,
producing the desired specific force. -/
def CascadedController.accel_des (c : CascadedController) (t : ℝ)
    (state : State) : Vec3 :=
  let pos_error := state.pos - c.ref.pos t
  let vel_error := state.vel - c.ref.vel t
  let a := -(c.Kpos.mulVec pos_error) - c.Kvel.mulVec vel_error - c.gvec + c.ref.acc t
  a

/-- `CascadedController.response(t, state)` (cascaded.py lines 62–118). -/
def CascadedController.response (gxx : XdotFun) (c : CascadedController) (t : ℝ)
    (state : State) : Command :=
  let accel_des := c.accel_des t state
  let jerkdes := c.ref.jerk t
  let snapdes := c.ref.snap t
  let yawdes := c.ref.yaw t
  let yawveldes := c.ref.yawvel t
  let yawaccdes := c.ref.yawacc t
  let z_b := Vec3.divScalar accel_des accel_des.norm
  let rot_des := rot_from_z_yaw_zyx z_b yawdes
  let x_b := rot_des.apply e1
  let y_b := rot_des.apply e2
  flatness_inner gxx c.Krot c.Kang c.rot_metric c.u_f c.model accel_des jerkdes
    snapdes yawveldes yawaccdes z_b x_b y_b rot_des state

/-- Stateful reading of `CascadedController.response`: the method body contains
no assignment to `self`, so the translated method returns the command together
with the unchanged controller. -/
def CascadedController.responseM (gxx : XdotFun) (c : CascadedController) (t : ℝ)
    (state : State) : Command × CascadedController :=
  (CascadedController.response gxx c t state, c)

/-- The learner collaborator (§6): acceleration-error estimate `testpoint`, its
position/velocity sensitivities `dpos`/`dvel` (linear maps, i.e. matrices), and
the accumulated training dataset. -/
structure AccelLearner where
  testpoint : ℝ → State → Vec3 → Vec3
  dpos : ℝ → State → Vec3 → Mat3
  dvel : ℝ → State → Vec3 → Mat3
  data : List (ℝ × State × (ℝ × Vec3))

/-- Modelled from the spec: `add_datapoint` (base class `ControllerLearnAccel`,
not under `src/`) records a training example `(t, state, (thrust, torque))` in
the learner's dataset (§4.4, §6). -/
def AccelLearner.add_datapoint (L : AccelLearner) (t : ℝ) (state : State)
    (u : ℝ × Vec3) : AccelLearner :=
  ⟨L.testpoint, L.dpos, L.dvel, L.data ++ [(t, state, u)]⟩

/-- The learning-augmented controller (cascaded.py lines 120–229).  The base
class `ControllerLearnAccel` stores the learner as `accel_learner` and the
reference slot; the `features` constructor argument is stored by the base class
and never used by `response`, so it is not modelled. -/
structure CascadedControllerLearnAccel where
  Kpos : Mat3
  Kvel : Mat3
  Krot : Mat3
  Kang : Mat3
  gvec : Vec3
  rot_metric : Rot → Rot → Vec3
  u_f : Vec3 → Rot → ℝ
  model : Model
  ref : RefTraj
  accel_learner : AccelLearner

/-- `CascadedControllerLearnAccel.__init__` (cascaded.py lines 121–138). -/
def CascadedControllerLearnAccel.init (model : Model) (learner : AccelLearner)
    (rot_metric : Rot → Rot → Vec3) (u_f : Vec3 → Rot → ℝ) (ref : RefTraj) :
    CascadedControllerLearnAccel :=
  ⟨(6 : ℝ) • Mat3.eye, (4 : ℝ) • Mat3.eye,
    Mat3.set22 ((120 : ℝ) • Mat3.eye) 30, Mat3.set22 ((16 : ℝ) • Mat3.eye) 10,
    ⟨0, 0, -model.g⟩, rot_metric, u_f, model, ref, learner⟩

/-- cascaded.py lines 141–154: the position loop of
`CascadedControllerLearnAccel.response`.  Its value is what
`control_for_learner` holds when `testpoint` is queried on line 157 (the
desired specific force *before* the learned correction is subtracted).  Note
that line 154 (`control_for_learner = accel_des`) merely aliases the numpy
array, and line 158 (`accel_des -= acc_error`) mutates that array in place, so
by the `dpos`/`dvel` queries on lines 160–161 the alias holds the *corrected*
vector instead. -/
def CascadedControllerLearnAccel.control_for_learner
    (c : CascadedControllerLearnAccel) (t : ℝ) (state : State) : Vec3 :=
  let posref := c.ref.pos t
  let velref := c.ref.vel t
  let accref := c.ref.acc t
  let pos_error := state.pos - posref
  let vel_error := state.vel - velref
  let a := -(c.Kpos.mulVec pos_error) - c.Kvel.mulVec vel_error - c.gvec + accref
  a

/-- `CascadedControllerLearnAccel.response(t, state)` (cascaded.py lines
140–229), in stateful reading: the `add_datapoint` call on line 227 mutates the
learner, so the translated method returns the command together with the updated
controller.  Line 154 aliases `control_for_learner` to the `accel_des` array
and line 158 subtracts `acc_error` from that array *in place*; hence
`testpoint` (line 157) observes the pre-correction value while `dpos` and
`dvel` (lines 160–161) observe the corrected vector, which the translation
passes explicitly. -/
def CascadedControllerLearnAccel.response (gxx : XdotFun)
    (c : CascadedControllerLearnAccel) (t : ℝ) (state : State) :
    Command × CascadedControllerLearnAccel :=
  let accref := c.ref.acc t
  let jerkref := c.ref.jerk t
  let snapref := c.ref.snap t
  let velref := c.ref.vel t
  let accel_des0 := c.control_for_learner t state
  let acc_error := c.accel_learner.testpoint t state accel_des0
  let accel_des := accel_des0 - acc_error
  let dpos := c.accel_learner.dpos t state accel_des
  let dvel := c.accel_learner.dvel t state accel_des
  let aed1 := dvel.mulVec accref + dpos.mulVec velref
  let aed2 := dvel.mulVec jerkref + dpos.mulVec accref
  let jerkdes := jerkref - aed1
  let snapdes := snapref - aed2
  let yawdes := c.ref.yaw t
  let yawveldes := c.ref.yawvel t
  let yawaccdes := c.ref.yawacc t
  let z_b := Vec3.divScalar accel_des accel_des.norm
  let c2 : Vec3 := ⟨-Real.sin yawdes, Real.cos yawdes, 0⟩
  let x_b0 := c2.cross z_b
  let x_b := Vec3.divScalar x_b0 x_b0.norm
  let y_b := z_b.cross x_b
  let rot_des : Rot := ⟨x_b, y_b, z_b⟩
  let cmd := flatness_inner gxx c.Krot c.Kang c.rot_metric c.u_f c.model accel_des
    jerkdes snapdes yawveldes yawaccdes z_b x_b y_b rot_des state
  (cmd, ⟨c.Kpos, c.Kvel, c.Krot, c.Kang, c.gvec, c.rot_metric, c.u_f, c.model,
    c.ref, c.accel_learner.add_datapoint t state (cmd.thrust, cmd.torque)⟩)

/-- The forgetful projection from the learning-augmented controller to the base
controller: both constructors install identical gains and collaborators. -/
def CascadedControllerLearnAccel.base (c : CascadedControllerLearnAccel) :
    CascadedController :=
  ⟨c.Kpos, c.Kvel, c.Krot, c.Kang, c.gvec, c.rot_metric, c.u_f, c.model, c.ref⟩

/-- An orthonormal right-handed frame: columns of unit norm, mutually
orthogonal, with determinant `+1` (§8). -/
def orthoFrame (r : Rot) : Prop :=
  r.colx.norm = 1 ∧ r.coly.norm = 1 ∧ r.colz.norm = 1 ∧
  r.colx.dot r.coly = 0 ∧ r.colx.dot r.colz = 0 ∧ r.coly.dot r.colz = 0 ∧
  det3 r.colx r.coly r.colz = 1

/-- The all-zero constant reference trajectory of the hover scenario (§8). -/
def ref0 : RefTraj :=
  ⟨fun _ => 0, fun _ => 0, fun _ => 0, fun _ => 0, fun _ => 0,
    fun _ => 0, fun _ => 0, fun _ => 0⟩

/-- The hover-scenario state: zero position, velocity and body rate, identity
attitude (§8). -/
def s0 : State := ⟨0, 0, Rot.id, 0⟩

/-- A concrete `get_xdot_xddot` collaborator used to witness hypotheses: the
constant function returning zero derivatives. -/
def gxx0 : XdotFun := fun _ _ _ _ _ _ => (0, 0)

/-- A concrete rotation metric used to witness hypotheses: identically zero. -/
def rm0 : Rot → Rot → Vec3 := fun _ _ => 0

/-- A concrete zero learner used to witness hypotheses. -/
def learner0 : AccelLearner :=
  ⟨fun _ _ _ => 0, fun _ _ _ => Mat3.zero, fun _ _ _ => Mat3.zero, []⟩

/-- The hover-scenario model: unit mass, `g = 9.81`, identity inertia. -/
def model0 : Model := ⟨1, 9.81, Mat3.eye⟩

/-- A concrete base controller used to witness hypotheses. -/
def c0 : CascadedController :=
  CascadedController.init model0 rm0 thrust_project_z ref0

/-- A concrete learning-augmented controller used to witness hypotheses. -/
def cL0 : CascadedControllerLearnAccel :=
  CascadedControllerLearnAccel.init model0 learner0 rm0 thrust_project_z ref0

/-- A model with unit mass, `g = 1` and identity inertia, for the aliasing
counterexample. -/
def modelC : Model := ⟨1, 1, Mat3.eye⟩

/-- A reference that is zero except for a constant acceleration `(0,0,1)`, so
that the learner sensitivities `dpos`/`dvel` enter the jerk correction. -/
def refC : RefTraj :=
  ⟨fun _ => 0, fun _ => 0, fun _ => ⟨0, 0, 1⟩, fun _ => 0, fun _ => 0,
    fun _ => 0, fun _ => 0, fun _ => 0⟩

/-- A learner with constant acceleration-error estimate `(0,0,3)` and zero
sensitivities. -/
def learnerA : AccelLearner :=
  ⟨fun _ _ _ => ⟨0, 0, 3⟩, fun _ _ _ => Mat3.zero, fun _ _ _ => Mat3.zero, []⟩

/-- Like `learnerA`, but its `dvel` vanishes at control vectors with third
component `2` (the pre-correction value of the counterexample scenario) while
being non-zero elsewhere — in particular at the post-correction vector. -/
def learnerB : AccelLearner :=
  ⟨fun _ _ _ => ⟨0, 0, 3⟩, fun _ _ _ => Mat3.zero,
    fun _ _ v => ⟨⟨0, 0, v.z - 2⟩, 0, 0⟩, []⟩

/-- The counterexample controller built on `learnerA`. -/
def cA : CascadedControllerLearnAccel :=
  CascadedControllerLearnAccel.init modelC learnerA rm0 thrust_project_z refC

/-- The counterexample controller built on `learnerB`; it differs from `cA`
only in the learner's `dvel` away from the pre-correction control value. -/
def cB : CascadedControllerLearnAccel :=
  CascadedControllerLearnAccel.init modelC learnerB rm0 thrust_project_z refC

/-! ### Componentwise algebra of the embedding -/

namespace Vec3

@[simp] theorem zero_x : (0 : Vec3).x = 0 := rfl

@[simp] theorem zero_y : (0 : Vec3).y = 0 := rfl

@[simp] theorem zero_z : (0 : Vec3).z = 0 := rfl

@[simp] theorem add_x (a b : Vec3) : (a + b).x = a.x + b.x := rfl

@[simp] theorem add_y (a b : Vec3) : (a + b).y = a.y + b.y := rfl

@[simp] theorem add_z (a b : Vec3) : (a + b).z = a.z + b.z := rfl

@[simp] theorem sub_x (a b : Vec3) : (a - b).x = a.x - b.x := rfl

@[simp] theorem sub_y (a b : Vec3) : (a - b).y = a.y - b.y := rfl

@[simp] theorem sub_z (a b : Vec3) : (a - b).z = a.z - b.z := rfl

@[simp] theorem neg_x (a : Vec3) : (-a).x = -a.x := rfl

@[simp] theorem neg_y (a : Vec3) : (-a).y = -a.y := rfl

@[simp] theorem neg_z (a : Vec3) : (-a).z = -a.z := rfl

@[simp] theorem smul_x (c : ℝ) (a : Vec3) : (c • a).x = c * a.x := rfl

@[simp] theorem smul_y (c : ℝ) (a : Vec3) : (c • a).y = c * a.y := rfl

@[simp] theorem smul_z (c : ℝ) (a : Vec3) : (c • a).z = c * a.z := rfl

@[simp] theorem mk_zero : (Vec3.mk 0 0 0) = 0 := rfl

@[simp] theorem mk_add_mk (a b c d e f : ℝ) :
    (Vec3.mk a b c) + (Vec3.mk d e f) = ⟨a + d, b + e, c + f⟩ := rfl

@[simp] theorem mk_sub_mk (a b c d e f : ℝ) :
    (Vec3.mk a b c) - (Vec3.mk d e f) = ⟨a - d, b - e, c - f⟩ := rfl

@[simp] theorem neg_mk (a b c : ℝ) : -(Vec3.mk a b c) = ⟨-a, -b, -c⟩ := rfl

@[simp] theorem smul_mk (s a b c : ℝ) :
    s • (Vec3.mk a b c) = ⟨s * a, s * b, s * c⟩ := rfl

@[simp] theorem zero_sub (v : Vec3) : 0 - v = -v := by ext <;> simp

@[simp] theorem add_zero (v : Vec3) : v + 0 = v := by ext <;> simp

@[simp] theorem zero_add (v : Vec3) : 0 + v = v := by ext <;> simp

@[simp] theorem sub_zero (v : Vec3) : v - 0 = v := by ext <;> simp

@[simp] theorem sub_self (v : Vec3) : v - v = 0 := by ext <;> simp

@[simp] theorem neg_zero : -(0 : Vec3) = 0 := by ext <;> simp

@[simp] theorem smul_zero (c : ℝ) : c • (0 : Vec3) = 0 := by ext <;> simp

@[simp] theorem zero_smul (v : Vec3) : (0 : ℝ) • v = 0 := by ext <;> simp

@[simp] theorem one_smul (v : Vec3) : (1 : ℝ) • v = v := by ext <;> simp

@[simp] theorem mk_dot_mk (a b c d e f : ℝ) :
    (Vec3.mk a b c).dot ⟨d, e, f⟩ = a * d + b * e + c * f := rfl

@[simp] theorem mk_cross_mk (a b c d e f : ℝ) :
    (Vec3.mk a b c).cross ⟨d, e, f⟩ = ⟨b * f - c * e, c * d - a * f, a * e - b * d⟩ := rfl

@[simp] theorem dot_zero (a : Vec3) : a.dot 0 = 0 := by simp [dot]

@[simp] theorem zero_dot (a : Vec3) : Vec3.dot 0 a = 0 := by simp [dot]

@[simp] theorem cross_zero (a : Vec3) : a.cross 0 = 0 := by ext <;> simp [cross]

@[simp] theorem zero_cross (a : Vec3) : Vec3.cross 0 a = 0 := by ext <;> simp [cross]

theorem dot_comm (a b : Vec3) : a.dot b = b.dot a := by simp [dot]; ring

@[simp] theorem divScalar_mk (a b c s : ℝ) :
    divScalar ⟨a, b, c⟩ s = ⟨a / s, b / s, c / s⟩ := rfl

@[simp] theorem divScalar_zero (s : ℝ) : divScalar 0 s = 0 := by
  ext <;> simp [divScalar]

theorem divScalar_one (a : Vec3) : divScalar a 1 = a := by ext <;> simp [divScalar]

theorem dot_divScalar_left (a b : Vec3) (s : ℝ) :
    (divScalar a s).dot b = a.dot b / s := by
  simp [divScalar, dot]; ring

theorem dot_divScalar_both (a b : Vec3) (s u : ℝ) :
    (divScalar a s).dot (divScalar b u) = a.dot b / (s * u) := by
  simp [divScalar, dot]; ring

theorem dot_self_nonneg (v : Vec3) : 0 ≤ v.dot v :=
  add_nonneg (add_nonneg (mul_self_nonneg _) (mul_self_nonneg _)) (mul_self_nonneg _)

theorem dot_self_eq_zero (v : Vec3) : v.dot v = 0 ↔ v = 0 := by
  constructor
  · intro h
    simp only [dot] at h
    have hx : v.x * v.x = 0 := le_antisymm
      (by nlinarith [mul_self_nonneg v.y, mul_self_nonneg v.z]) (mul_self_nonneg _)
    have hy : v.y * v.y = 0 := le_antisymm
      (by nlinarith [mul_self_nonneg v.x, mul_self_nonneg v.z]) (mul_self_nonneg _)
    have hz : v.z * v.z = 0 := le_antisymm
      (by nlinarith [mul_self_nonneg v.x, mul_self_nonneg v.y]) (mul_self_nonneg _)
    ext
    · exact mul_self_eq_zero.mp hx
    · exact mul_self_eq_zero.mp hy
    · exact mul_self_eq_zero.mp hz
  · rintro rfl; simp

theorem dot_self_pos {v : Vec3} (h : v ≠ 0) : 0 < v.dot v :=
  lt_of_le_of_ne (dot_self_nonneg v) fun he => h ((dot_self_eq_zero v).mp he.symm)

theorem norm_nonneg (v : Vec3) : 0 ≤ v.norm := Real.sqrt_nonneg _

theorem norm_pos {v : Vec3} (h : v ≠ 0) : 0 < v.norm :=
  Real.sqrt_pos.mpr (dot_self_pos h)

theorem mul_self_norm (v : Vec3) : v.norm * v.norm = v.dot v :=
  Real.mul_self_sqrt (dot_self_nonneg v)

theorem norm_eq_one_of_dot {v : Vec3} (h : v.dot v = 1) : v.norm = 1 := by
  rw [norm, h, Real.sqrt_one]

@[simp] theorem norm_zero : (0 : Vec3).norm = 0 := by
  rw [norm, dot_zero, Real.sqrt_zero]

theorem norm_zzc (c : ℝ) : (Vec3.mk 0 0 c).norm = |c| := by
  have h : (Vec3.mk 0 0 c).dot (Vec3.mk 0 0 c) = c ^ 2 := by
    show (0 : ℝ) * 0 + 0 * 0 + c * c = c ^ 2
    ring
  rw [norm, h, Real.sqrt_sq_eq_abs]

theorem norm_c00 (c : ℝ) : (Vec3.mk c 0 0).norm = |c| := by
  have h : (Vec3.mk c 0 0).dot (Vec3.mk c 0 0) = c ^ 2 := by
    show c * c + (0 : ℝ) * 0 + 0 * 0 = c ^ 2
    ring
  rw [norm, h, Real.sqrt_sq_eq_abs]

theorem norm_smul (c : ℝ) (v : Vec3) : (c • v).norm = |c| * v.norm := by
  have h : (c • v).dot (c • v) = c ^ 2 * v.dot v := by simp [dot]; ring
  rw [norm, h, Real.sqrt_mul (sq_nonneg c), Real.sqrt_sq_eq_abs, norm]

theorem cross_dot_left (a b : Vec3) : (a.cross b).dot a = 0 := by
  simp [cross, dot]; ring

theorem cross_dot_right (a b : Vec3) : (a.cross b).dot b = 0 := by
  simp [cross, dot]; ring

theorem cross_dot_cross (a b : Vec3) :
    (a.cross b).dot (a.cross b) = a.dot a * b.dot b - (a.dot b) ^ 2 := by
  simp [cross, dot]; ring

end Vec3

theorem normalized_zero : normalized 0 = 0 := by simp [normalized]

@[simp] theorem divScalar_norm (v : Vec3) : Vec3.divScalar v v.norm = normalized v := rfl

theorem dot_normalized {v : Vec3} (h : v ≠ 0) :
    (normalized v).dot (normalized v) = 1 := by
  rw [normalized, Vec3.dot_divScalar_both, Vec3.mul_self_norm]
  exact div_self (Vec3.dot_self_pos h).ne'

theorem norm_normalized {v : Vec3} (h : v ≠ 0) : (normalized v).norm = 1 :=
  Vec3.norm_eq_one_of_dot (dot_normalized h)

@[simp] theorem normalized_idem (v : Vec3) :
    normalized (normalized v) = normalized v := by
  by_cases h : v = 0
  · subst h; rw [normalized_zero, normalized_zero]
  · conv_lhs => rw [normalized]
    rw [norm_normalized h, Vec3.divScalar_one]

theorem normalized_smul {c : ℝ} (hc : 0 < c) (v : Vec3) :
    normalized (c • v) = normalized v := by
  rw [normalized, normalized, Vec3.norm_smul, abs_of_pos hc]
  ext
  · show c * v.x / (c * v.norm) = v.x / v.norm
    exact mul_div_mul_left v.x v.norm hc.ne'
  · show c * v.y / (c * v.norm) = v.y / v.norm
    exact mul_div_mul_left v.y v.norm hc.ne'
  · show c * v.z / (c * v.norm) = v.z / v.norm
    exact mul_div_mul_left v.z v.norm hc.ne'

theorem det3_cross_mid (a b : Vec3) :
    det3 a (b.cross a) b = a.dot a * b.dot b - (a.dot b) ^ 2 := by
  simp [det3, Vec3.cross, Vec3.dot]; ring

theorem det3_cross_head (a b : Vec3) :
    det3 (a.cross b) a b = (a.cross b).dot (a.cross b) := rfl

namespace Mat3

@[simp] theorem mulVec_zero (m : Mat3) : m.mulVec 0 = 0 := by
  ext <;> simp [Mat3.mulVec]

@[simp] theorem zero_mulVec (v : Vec3) : Mat3.zero.mulVec v = 0 := by
  ext <;> simp [Mat3.mulVec, Mat3.zero]

end Mat3

namespace Rot

@[simp] theorem apply_zero (r : Rot) : r.apply 0 = 0 := by ext <;> simp [Rot.apply]

@[simp] theorem mk_apply_e1 (a b c : Vec3) : (Rot.mk a b c).apply e1 = a := by
  ext <;> simp [Rot.apply, e1]

@[simp] theorem mk_apply_e2 (a b c : Vec3) : (Rot.mk a b c).apply e2 = b := by
  ext <;> simp [Rot.apply, e2]

@[simp] theorem mk_apply_e3 (a b c : Vec3) : (Rot.mk a b c).apply e3 = c := by
  ext <;> simp [Rot.apply, e3]

@[simp] theorem id_apply (v : Vec3) : Rot.id.apply v = v := by
  ext <;> simp [Rot.apply, Rot.id]

end Rot

/-! ### Gain matrices -/

@[simp] theorem Mat3.smul_r0 (c : ℝ) (m : Mat3) : (c • m).r0 = c • m.r0 := rfl

@[simp] theorem Mat3.smul_r1 (c : ℝ) (m : Mat3) : (c • m).r1 = c • m.r1 := rfl

@[simp] theorem Mat3.smul_r2 (c : ℝ) (m : Mat3) : (c • m).r2 = c • m.r2 := rfl

theorem six_eye : (6 : ℝ) • Mat3.eye = Mat3.diag 6 6 6 := by
  ext <;> simp [Mat3.eye, Mat3.diag]

theorem four_eye : (4 : ℝ) • Mat3.eye = Mat3.diag 4 4 4 := by
  ext <;> simp [Mat3.eye, Mat3.diag]

theorem krot_eye : Mat3.set22 ((120 : ℝ) • Mat3.eye) 30 = Mat3.diag 120 120 30 := by
  ext <;> simp [Mat3.eye, Mat3.diag, Mat3.set22]

theorem kang_eye : Mat3.set22 ((16 : ℝ) • Mat3.eye) 10 = Mat3.diag 16 16 10 := by
  ext <;> simp [Mat3.eye, Mat3.diag, Mat3.set22]

/-! ### Orthonormal-frame lemmas -/

theorem normalized_unit_z : normalized (Vec3.mk 0 0 1) = ⟨0, 0, 1⟩ := by
  rw [normalized, Vec3.norm_zzc]
  norm_num

theorem frame_aux_zyx (n w : Vec3) (hnn : n.dot n = 1) (hw : w.cross n ≠ 0) :
    orthoFrame (Rot.mk (normalized (w.cross n))
      (n.cross (normalized (w.cross n))) n) := by
  have hx1 : (normalized (w.cross n)).dot (normalized (w.cross n)) = 1 :=
    dot_normalized hw
  have hxz : (normalized (w.cross n)).dot n = 0 := by
    calc (normalized (w.cross n)).dot n
        = (w.cross n).dot n / (w.cross n).norm := Vec3.dot_divScalar_left _ _ _
      _ = 0 := by rw [Vec3.cross_dot_right, zero_div]
  have hzx : n.dot (normalized (w.cross n)) = 0 := by rw [Vec3.dot_comm]; exact hxz
  have hy1 : (n.cross (normalized (w.cross n))).dot
      (n.cross (normalized (w.cross n))) = 1 := by
    rw [Vec3.cross_dot_cross, hnn, hx1, hzx]; norm_num
  refine ⟨Vec3.norm_eq_one_of_dot hx1, Vec3.norm_eq_one_of_dot hy1,
    Vec3.norm_eq_one_of_dot hnn, ?_, hxz, Vec3.cross_dot_left n _, ?_⟩
  · rw [Vec3.dot_comm]; exact Vec3.cross_dot_right n _
  · rw [det3_cross_mid, hx1, hnn, hxz]; norm_num

theorem frame_aux_zxy (n w : Vec3) (hnn : n.dot n = 1) (hw : n.cross w ≠ 0) :
    orthoFrame (Rot.mk ((normalized (n.cross w)).cross n)
      (normalized (n.cross w)) n) := by
  have hy1 : (normalized (n.cross w)).dot (normalized (n.cross w)) = 1 :=
    dot_normalized hw
  have hyz : (normalized (n.cross w)).dot n = 0 := by
    calc (normalized (n.cross w)).dot n
        = (n.cross w).dot n / (n.cross w).norm := Vec3.dot_divScalar_left _ _ _
      _ = 0 := by rw [Vec3.cross_dot_left, zero_div]
  have hx1 : ((normalized (n.cross w)).cross n).dot
      ((normalized (n.cross w)).cross n) = 1 := by
    rw [Vec3.cross_dot_cross, hy1, hnn, hyz]; norm_num
  refine ⟨Vec3.norm_eq_one_of_dot hx1, Vec3.norm_eq_one_of_dot hy1,
    Vec3.norm_eq_one_of_dot hnn, Vec3.cross_dot_left _ n, Vec3.cross_dot_right _ n,
    hyz, ?_⟩
  rw [det3_cross_head, Vec3.cross_dot_cross, hy1, hnn, hyz]; norm_num

/-! ### Claim theorems -/

/-- C5: on the spec-intended reading of `thrust_maintain_z` (the source body
itself raises `NameError` on every call, since `z_w` is an undefined name; the
spec's intent is the world z-axis), the function returns
`(desiredAccel · world-z) / ((rot applied to world-z) · world-z)`. -/
theorem thrust_maintain_z_spec_value (accel_des : Vec3) (rot : Rot) :
    thrust_maintain_z accel_des rot = accel_des.dot e3 / (rot.apply e3).dot e3 := rfl

/-- C2: in the flatness inversion, with `u` the scalar returned by the thrust
policy and `z_b = accel_des / ‖accel_des‖`, under the preconditions that
`accel_des` and `u` are non-zero, the computed thrust-direction derivatives
satisfy `zdot_des = (jerk_des − (jerk_des·z_b) z_b)/u` and
`zddot_des = (snap_des − 2(jerk_des·z_b) zdot_des − (snap_des·z_b +
u·(zdot_des·zdot_des)) z_b)/u`. -/
theorem flatness_direction_derivatives (u_f : Vec3 → Rot → ℝ)
    (accel_des jerk_des snap_des : Vec3) (rot : Rot)
    (ha : accel_des ≠ 0) (hu : u_f accel_des rot ≠ 0) :
    let z_b := Vec3.divScalar accel_des accel_des.norm
    let u := u_f accel_des rot
    zdotdes u jerk_des z_b = Vec3.divScalar (jerk_des - (jerk_des.dot z_b) • z_b) u ∧
    zddotdes u jerk_des snap_des z_b =
      Vec3.divScalar (snap_des - (2 * (jerk_des.dot z_b)) • zdotdes u jerk_des z_b
        - (snap_des.dot z_b
            + u * ((zdotdes u jerk_des z_b).dot (zdotdes u jerk_des z_b))) • z_b) u := by
  intro z_b u
  constructor
  · ext <;> simp [zdotdes, Vec3.divScalar] <;> ring
  · ext <;> simp [zdotdes, zddotdes, Vec3.divScalar] <;> ring

/-- Witness for C2: the hypotheses of `flatness_direction_derivatives` hold at a
concrete input. -/
theorem flatness_direction_derivatives_witness :
    ((Vec3.mk 0 0 1) ≠ (0 : Vec3)) ∧ (thrust_project_z ⟨0, 0, 1⟩ Rot.id ≠ 0) ∧
    (let z_b := Vec3.divScalar (Vec3.mk 0 0 1) (Vec3.norm ⟨0, 0, 1⟩)
     let u := thrust_project_z ⟨0, 0, 1⟩ Rot.id
     zdotdes u ⟨1, 2, 3⟩ z_b =
        Vec3.divScalar ((Vec3.mk 1 2 3) - ((Vec3.mk 1 2 3).dot z_b) • z_b) u ∧
     zddotdes u ⟨1, 2, 3⟩ ⟨4, 5, 6⟩ z_b =
        Vec3.divScalar ((Vec3.mk 4 5 6) - (2 * ((Vec3.mk 1 2 3).dot z_b)) • zdotdes u ⟨1, 2, 3⟩ z_b
          - ((Vec3.mk 4 5 6).dot z_b
              + u * ((zdotdes u ⟨1, 2, 3⟩ z_b).dot (zdotdes u ⟨1, 2, 3⟩ z_b))) • z_b) u) :=
  ⟨by simp [Vec3.ext_iff], by simp [thrust_project_z, e3],
    flatness_direction_derivatives thrust_project_z ⟨0, 0, 1⟩ ⟨1, 2, 3⟩ ⟨4, 5, 6⟩ Rot.id
      (by simp [Vec3.ext_iff]) (by simp [thrust_project_z, e3])⟩

/-- C6: the constructor fixes the gains `Kpos = diag(6,6,6)`,
`Kvel = diag(4,4,4)`, `Krot = diag(120,120,30)`, `Kang = diag(16,16,10)`, and the
position loop of `response` computes
`accel_des = −Kpos·(pos−ref.pos) − Kvel·(vel−ref.vel) − (0,0,−g) + ref.acc`. -/
theorem gains_and_position_loop (model : Model) (rm : Rot → Rot → Vec3)
    (uf : Vec3 → Rot → ℝ) (ref : RefTraj) (t : ℝ) (state : State) :
    (CascadedController.init model rm uf ref).Kpos = Mat3.diag 6 6 6 ∧
    (CascadedController.init model rm uf ref).Kvel = Mat3.diag 4 4 4 ∧
    (CascadedController.init model rm uf ref).Krot = Mat3.diag 120 120 30 ∧
    (CascadedController.init model rm uf ref).Kang = Mat3.diag 16 16 10 ∧
    (CascadedController.init model rm uf ref).accel_des t state =
      -((Mat3.diag 6 6 6).mulVec (state.pos - ref.pos t))
        - (Mat3.diag 4 4 4).mulVec (state.vel - ref.vel t)
        - (⟨0, 0, -model.g⟩ : Vec3) + ref.acc t := by
  refine ⟨six_eye, four_eye, krot_eye, kang_eye, ?_⟩
  simp only [CascadedController.accel_des, CascadedController.init, six_eye, four_eye]

/-- C7: every `CascadedControllerLearnAccel.response` call appends exactly one
datapoint `(t, state, (thrust, torque))` — with the same `t`, `state`, and the
returned command — to the learner's dataset, changes nothing else of the
controller or learner, and the returned command does not depend on the stored
dataset. -/
theorem response_adds_exactly_one_datapoint (gxx : XdotFun)
    (c : CascadedControllerLearnAccel) (t : ℝ) (state : State) :
    (CascadedControllerLearnAccel.response gxx c t state).2.accel_learner.data =
      c.accel_learner.data ++ [(t, state,
        ((CascadedControllerLearnAccel.response gxx c t state).1.thrust,
          (CascadedControllerLearnAccel.response gxx c t state).1.torque))] ∧
    (CascadedControllerLearnAccel.response gxx c t state).2.accel_learner.testpoint =
      c.accel_learner.testpoint ∧
    (CascadedControllerLearnAccel.response gxx c t state).2.accel_learner.dpos =
      c.accel_learner.dpos ∧
    (CascadedControllerLearnAccel.response gxx c t state).2.accel_learner.dvel =
      c.accel_learner.dvel ∧
    (CascadedControllerLearnAccel.response gxx c t state).2.Kpos = c.Kpos ∧
    (CascadedControllerLearnAccel.response gxx c t state).2.Kvel = c.Kvel ∧
    (CascadedControllerLearnAccel.response gxx c t state).2.Krot = c.Krot ∧
    (CascadedControllerLearnAccel.response gxx c t state).2.Kang = c.Kang ∧
    (CascadedControllerLearnAccel.response gxx c t state).2.gvec = c.gvec ∧
    (CascadedControllerLearnAccel.response gxx c t state).2.rot_metric = c.rot_metric ∧
    (CascadedControllerLearnAccel.response gxx c t state).2.u_f = c.u_f ∧
    (CascadedControllerLearnAccel.response gxx c t state).2.model = c.model ∧
    (CascadedControllerLearnAccel.response gxx c t state).2.ref = c.ref ∧
    ∀ data2 : List (ℝ × State × (ℝ × Vec3)),
      (CascadedControllerLearnAccel.response gxx
        ⟨c.Kpos, c.Kvel, c.Krot, c.Kang, c.gvec, c.rot_metric, c.u_f, c.model, c.ref,
          ⟨c.accel_learner.testpoint, c.accel_learner.dpos, c.accel_learner.dvel,
            data2⟩⟩ t state).1 =
      (CascadedControllerLearnAccel.response gxx c t state).1 := by
  refine ⟨rfl, rfl, rfl, rfl, rfl, rfl, rfl, rfl, rfl, rfl, rfl, rfl, rfl, fun data2 => rfl⟩

/-- C8: `CascadedController.response` is deterministic and side-effect free —
equal inputs give equal commands, and the controller (gains, gvec, model,
rotation metric, thrust policy, reference) is returned unchanged. -/
theorem response_deterministic_pure (gxx : XdotFun) (c c2 : CascadedController)
    (t t2 : ℝ) (s s2 : State) (hc : c = c2) (ht : t = t2) (hs : s = s2) :
    CascadedController.responseM gxx c t s = CascadedController.responseM gxx c2 t2 s2 ∧
    (CascadedController.responseM gxx c t s).2 = c := by
  subst hc; subst ht; subst hs; exact ⟨rfl, rfl⟩

/-- Witness for C8 at a concrete controller, time and state. -/
theorem response_deterministic_pure_witness :
    c0 = c0 ∧
    (CascadedController.responseM gxx0 c0 0 s0 = CascadedController.responseM gxx0 c0 0 s0 ∧
      (CascadedController.responseM gxx0 c0 0 s0).2 = c0) :=
  ⟨rfl, response_deterministic_pure gxx0 c0 c0 0 0 s0 s0 rfl rfl rfl⟩

/-- C9: both rotation constructors depend only on the direction of `z`: scaling
`z` by any positive constant leaves the result unchanged. -/
theorem rot_constructors_scale_invariant (z : Vec3) (yaw c : ℝ)
    (hz : z ≠ 0) (hc : 0 < c) :
    rot_from_z_yaw_zyx (c • z) yaw = rot_from_z_yaw_zyx z yaw ∧
    rot_from_z_yaw_zxy (c • z) yaw = rot_from_z_yaw_zxy z yaw := by
  constructor <;>
    simp only [rot_from_z_yaw_zyx, rot_from_z_yaw_zxy, normalized_smul hc]

/-- Witness for C9 at `z = (0,0,1)`, `yaw = 0`, `c = 2`. -/
theorem rot_constructors_scale_invariant_witness :
    ((Vec3.mk 0 0 1) ≠ (0 : Vec3)) ∧ ((0 : ℝ) < 2) ∧
    (rot_from_z_yaw_zyx ((2 : ℝ) • ⟨0, 0, 1⟩) 0 = rot_from_z_yaw_zyx ⟨0, 0, 1⟩ 0 ∧
      rot_from_z_yaw_zxy ((2 : ℝ) • ⟨0, 0, 1⟩) 0 = rot_from_z_yaw_zxy ⟨0, 0, 1⟩ 0) :=
  ⟨by simp [Vec3.ext_iff], by norm_num,
    rot_constructors_scale_invariant ⟨0, 0, 1⟩ 0 2 (by simp [Vec3.ext_iff]) (by norm_num)⟩

/-- C10 (amended): in `CascadedControllerLearnAccel.response`, `testpoint`
receives the pre-correction desired specific force, while `dpos` and `dvel`
receive the post-correction vector (`control_for_learner` aliases the
`accel_des` array, which `accel_des -= acc_error` mutates in place before
lines 160–161): a second learner agreeing with the controller's learner on
`testpoint` at the pre-correction value and on `dpos`/`dvel` at the
post-correction value yields an unchanged command. -/
theorem learner_query_points (gxx : XdotFun)
    (c : CascadedControllerLearnAccel) (L2 : AccelLearner) (t : ℝ) (state : State)
    (ht : L2.testpoint t state (c.control_for_learner t state) =
      c.accel_learner.testpoint t state (c.control_for_learner t state))
    (hp : L2.dpos t state (c.control_for_learner t state -
        c.accel_learner.testpoint t state (c.control_for_learner t state)) =
      c.accel_learner.dpos t state (c.control_for_learner t state -
        c.accel_learner.testpoint t state (c.control_for_learner t state)))
    (hv : L2.dvel t state (c.control_for_learner t state -
        c.accel_learner.testpoint t state (c.control_for_learner t state)) =
      c.accel_learner.dvel t state (c.control_for_learner t state -
        c.accel_learner.testpoint t state (c.control_for_learner t state))) :
    (CascadedControllerLearnAccel.response gxx
      ⟨c.Kpos, c.Kvel, c.Krot, c.Kang, c.gvec, c.rot_metric, c.u_f, c.model, c.ref, L2⟩
      t state).1 =
    (CascadedControllerLearnAccel.response gxx c t state).1 := by
  have hctl : CascadedControllerLearnAccel.control_for_learner
      ⟨c.Kpos, c.Kvel, c.Krot, c.Kang, c.gvec, c.rot_metric, c.u_f, c.model, c.ref, L2⟩
      t state = c.control_for_learner t state := rfl
  simp only [CascadedControllerLearnAccel.response, hctl, ht, hp, hv]

/-- Counterexample for C10 as stated: `learnerA` and `learnerB` agree — on all
three queries — at the pre-correction control value of the scenario
`(t = 0, s0)` on controller `cA`, yet the two controllers return different
commands, so `dpos`/`dvel` are not queried at the pre-correction value (they
are queried at the corrected vector, where the learners differ). -/
theorem learner_dpos_dvel_post_correction_cex :
    (learnerB.testpoint 0 s0 (cA.control_for_learner 0 s0) =
      learnerA.testpoint 0 s0 (cA.control_for_learner 0 s0)) ∧
    (learnerB.dpos 0 s0 (cA.control_for_learner 0 s0) =
      learnerA.dpos 0 s0 (cA.control_for_learner 0 s0)) ∧
    (learnerB.dvel 0 s0 (cA.control_for_learner 0 s0) =
      learnerA.dvel 0 s0 (cA.control_for_learner 0 s0)) ∧
    (CascadedControllerLearnAccel.response gxx0 cB 0 s0).1 ≠
      (CascadedControllerLearnAccel.response gxx0 cA 0 s0).1 := by
  have hpre : cA.control_for_learner 0 s0 = ⟨0, 0, 2⟩ := by
    norm_num [CascadedControllerLearnAccel.control_for_learner, cA,
      CascadedControllerLearnAccel.init, modelC, refC, s0]
  have hpreB : cB.control_for_learner 0 s0 = ⟨0, 0, 2⟩ := by
    norm_num [CascadedControllerLearnAccel.control_for_learner, cB,
      CascadedControllerLearnAccel.init, modelC, refC, s0]
  have hs1 : s0.rot = Rot.id := rfl
  have hs2 : s0.ang = 0 := rfl
  have hzm1 : normalized ⟨0, 0, -1⟩ = (⟨0, 0, -1⟩ : Vec3) := by
    rw [normalized, Vec3.norm_zzc]; norm_num
  have hxm1 : normalized ⟨-1, 0, 0⟩ = (⟨-1, 0, 0⟩ : Vec3) := by
    rw [normalized, Vec3.norm_c00]; norm_num
  have hrefA : cA.ref = refC := rfl
  have hlA : cA.accel_learner = learnerA := rfl
  have hmetA : cA.rot_metric = rm0 := rfl
  have hufA : cA.u_f = thrust_project_z := rfl
  have hmodA : cA.model = modelC := rfl
  have hKangA : cA.Kang = Mat3.set22 ((16 : ℝ) • Mat3.eye) 10 := rfl
  have hrefB : cB.ref = refC := rfl
  have hlB : cB.accel_learner = learnerB := rfl
  have hmetB : cB.rot_metric = rm0 := rfl
  have hufB : cB.u_f = thrust_project_z := rfl
  have hmodB : cB.model = modelC := rfl
  have hKangB : cB.Kang = Mat3.set22 ((16 : ℝ) • Mat3.eye) 10 := rfl
  have hA : (CascadedControllerLearnAccel.response gxx0 cA 0 s0).1 =
      ⟨-1, 0⟩ := by
    norm_num [CascadedControllerLearnAccel.response, flatness_inner, zdotdes,
      zddotdes, torque_from_aa, hpre, hrefA, hlA, hmetA, hufA, hmodA, hKangA,
      hs1, hs2, hzm1, hxm1, refC, learnerA, modelC, rm0, gxx0, thrust_project_z,
      e3, Rot.apply, Rot.inv, Rot.id, Mat3.mulVec, Mat3.set22, Mat3.eye, Mat3.zero]
  have hB : (CascadedControllerLearnAccel.response gxx0 cB 0 s0).1 =
      ⟨-1, ⟨0, 48, 0⟩⟩ := by
    norm_num [CascadedControllerLearnAccel.response, flatness_inner, zdotdes,
      zddotdes, torque_from_aa, hpreB, hrefB, hlB, hmetB, hufB, hmodB, hKangB,
      hs1, hs2, hzm1, hxm1, refC, learnerB, modelC, rm0, gxx0, thrust_project_z,
      e3, Rot.apply, Rot.inv, Rot.id, Mat3.mulVec, Mat3.set22, Mat3.eye, Mat3.zero]
  refine ⟨rfl, rfl, ?_, ?_⟩
  · rw [hpre]
    ext <;> norm_num [learnerA, learnerB, Mat3.zero]
  · rw [hA, hB]
    norm_num [Command.mk.injEq, Vec3.ext_iff]

/-- C3 (amended): for every non-zero `z` and yaw angle such that `z` is not
parallel to the horizontal yaw-reference axis of the respective convention
(equivalently, the intermediate cross product is non-zero), both
`rot_from_z_yaw_zyx` and `rot_from_z_yaw_zxy` produce a rotation whose columns
are unit-norm, mutually orthogonal, right-handed with determinant `+1`, and
whose third column is `z/‖z‖`. -/
theorem rot_from_z_yaw_frames (z : Vec3) (yaw : ℝ) (hz : z ≠ 0)
    (h1 : (Vec3.mk (-Real.sin yaw) (Real.cos yaw) 0).cross (normalized z) ≠ 0)
    (h2 : (normalized z).cross (Vec3.mk (Real.cos yaw) (Real.sin yaw) 0) ≠ 0) :
    (orthoFrame (rot_from_z_yaw_zyx z yaw) ∧
      (rot_from_z_yaw_zyx z yaw).colz = normalized z) ∧
    (orthoFrame (rot_from_z_yaw_zxy z yaw) ∧
      (rot_from_z_yaw_zxy z yaw).colz = normalized z) := by
  have hnn := dot_normalized hz
  exact ⟨⟨frame_aux_zyx (normalized z) ⟨-Real.sin yaw, Real.cos yaw, 0⟩ hnn h1, rfl⟩,
    ⟨frame_aux_zxy (normalized z) ⟨Real.cos yaw, Real.sin yaw, 0⟩ hnn h2, rfl⟩⟩

/-- Counterexample for C3 as stated: `z = (0,1,0)` is non-zero, yet at
`yaw = 0` the first column of `rot_from_z_yaw_zyx` has norm `0`, not `1` — the
degenerate case where `z` is parallel to the intermediate yaw axis. -/
theorem rot_from_z_yaw_zyx_degenerate :
    ((Vec3.mk 0 1 0) ≠ (0 : Vec3)) ∧
    (rot_from_z_yaw_zyx ⟨0, 1, 0⟩ 0).colx.norm ≠ 1 := by
  constructor
  · simp [Vec3.ext_iff]
  · have h010 : normalized ⟨0, 1, 0⟩ = ⟨0, 1, 0⟩ := by
      rw [normalized]
      have hn : Vec3.norm ⟨0, 1, 0⟩ = 1 := by
        rw [Vec3.norm, Vec3.mk_dot_mk]; norm_num [Real.sqrt_one]
      rw [hn, Vec3.divScalar_one]
    have h : (rot_from_z_yaw_zyx ⟨0, 1, 0⟩ 0).colx = 0 := by
      simp only [rot_from_z_yaw_zyx, h010]
      norm_num [normalized_zero]
    rw [h, Vec3.norm_zero]
    norm_num

/-- Witness for C3: the hypotheses of `rot_from_z_yaw_frames` hold at
`z = (0,0,1)`, `yaw = 0`. -/
theorem rot_from_z_yaw_frames_witness :
    ((Vec3.mk 0 0 1) ≠ (0 : Vec3)) ∧
    ((Vec3.mk (-Real.sin 0) (Real.cos 0) 0).cross (normalized ⟨0, 0, 1⟩) ≠ 0) ∧
    ((normalized ⟨0, 0, 1⟩).cross (Vec3.mk (Real.cos 0) (Real.sin 0) 0) ≠ 0) ∧
    ((orthoFrame (rot_from_z_yaw_zyx ⟨0, 0, 1⟩ 0) ∧
        (rot_from_z_yaw_zyx ⟨0, 0, 1⟩ 0).colz = normalized ⟨0, 0, 1⟩) ∧
      (orthoFrame (rot_from_z_yaw_zxy ⟨0, 0, 1⟩ 0) ∧
        (rot_from_z_yaw_zxy ⟨0, 0, 1⟩ 0).colz = normalized ⟨0, 0, 1⟩)) :=
  ⟨by simp [Vec3.ext_iff],
    by norm_num [normalized_unit_z, Vec3.ext_iff],
    by norm_num [normalized_unit_z, Vec3.ext_iff],
    rot_from_z_yaw_frames ⟨0, 0, 1⟩ 0 (by simp [Vec3.ext_iff])
      (by norm_num [normalized_unit_z, Vec3.ext_iff])
      (by norm_num [normalized_unit_z, Vec3.ext_iff])⟩

/-- Witness for C10: the hypotheses of `learner_query_points` hold when the
second learner is the controller's own learner. -/
theorem learner_query_points_witness :
    (cL0.accel_learner.testpoint 0 s0 (cL0.control_for_learner 0 s0) =
      cL0.accel_learner.testpoint 0 s0 (cL0.control_for_learner 0 s0)) ∧
    (CascadedControllerLearnAccel.response gxx0
      ⟨cL0.Kpos, cL0.Kvel, cL0.Krot, cL0.Kang, cL0.gvec, cL0.rot_metric, cL0.u_f,
        cL0.model, cL0.ref, cL0.accel_learner⟩ 0 s0).1 =
    (CascadedControllerLearnAccel.response gxx0 cL0 0 s0).1 :=
  ⟨rfl, learner_query_points gxx0 cL0 cL0.accel_learner 0 s0 rfl rfl rfl⟩

/-- C4: with a zero-valued learner (`testpoint`, `dpos`, `dvel` all return
zero), the learning-augmented controller returns exactly the same
`(thrust, torque)` command as the base controller on identical inputs. -/
theorem learn_accel_zero_learner_refines (gxx : XdotFun)
    (c : CascadedControllerLearnAccel) (t : ℝ) (state : State)
    (htp : ∀ a b d, c.accel_learner.testpoint a b d = 0)
    (hdp : ∀ a b d, c.accel_learner.dpos a b d = Mat3.zero)
    (hdv : ∀ a b d, c.accel_learner.dvel a b d = Mat3.zero) :
    (CascadedControllerLearnAccel.response gxx c t state).1 =
      CascadedController.response gxx c.base t state := by
  simp only [CascadedControllerLearnAccel.response, CascadedController.response,
    CascadedControllerLearnAccel.base, CascadedControllerLearnAccel.control_for_learner,
    CascadedController.accel_des, htp, hdp, hdv, Mat3.zero_mulVec, Vec3.sub_zero,
    Vec3.add_zero, Vec3.zero_add, rot_from_z_yaw_zyx, divScalar_norm, normalized_idem,
    Rot.mk_apply_e1, Rot.mk_apply_e2]

/-- Witness for C4: the zero learner of `cL0` satisfies the hypotheses of
`learn_accel_zero_learner_refines`. -/
theorem learn_accel_zero_learner_refines_witness :
    (∀ a b d, cL0.accel_learner.testpoint a b d = (0 : Vec3)) ∧
    (∀ a b d, cL0.accel_learner.dpos a b d = Mat3.zero) ∧
    (∀ a b d, cL0.accel_learner.dvel a b d = Mat3.zero) ∧
    (CascadedControllerLearnAccel.response gxx0 cL0 0 s0).1 =
      CascadedController.response gxx0 cL0.base 0 s0 :=
  ⟨fun _ _ _ => rfl, fun _ _ _ => rfl, fun _ _ _ => rfl,
    learn_accel_zero_learner_refines gxx0 cL0 0 s0
      (fun _ _ _ => rfl) (fun _ _ _ => rfl) (fun _ _ _ => rfl)⟩

/-! ### The hover scenario -/

theorem rot_zyx_001 : rot_from_z_yaw_zyx ⟨0, 0, 1⟩ 0 = Rot.id := by
  have hc1 : (Vec3.mk (-Real.sin 0) (Real.cos 0) 0).cross ⟨0, 0, 1⟩ = ⟨1, 0, 0⟩ := by
    norm_num
  have hn100 : normalized ⟨1, 0, 0⟩ = ⟨1, 0, 0⟩ := by
    rw [normalized]
    have h1 : Vec3.norm ⟨1, 0, 0⟩ = 1 := by
      rw [Vec3.norm, Vec3.mk_dot_mk]; norm_num [Real.sqrt_one]
    rw [h1, Vec3.divScalar_one]
  have hc2 : (Vec3.mk 0 0 1).cross ⟨1, 0, 0⟩ = ⟨0, 1, 0⟩ := by norm_num
  simp only [rot_from_z_yaw_zyx, normalized_unit_z, hc1, hn100, hc2]
  rfl

theorem hover_general (gxx : XdotFun) (rm : Rot → Rot → Vec3) (m g : ℝ)
    (inertia : Mat3) (t : ℝ) (hg : 0 < g) (hrm : ∀ r, rm r r = 0)
    (hgxx : gxx 0 0 ⟨1, 0, 0⟩ ⟨0, 0, 1⟩ 0 0 = (0, 0)) :
    CascadedController.response gxx
      (CascadedController.init ⟨m, g, inertia⟩ rm thrust_project_z ref0) t s0 =
      ⟨m * g, 0⟩ := by
  have hng : Vec3.norm ⟨0, 0, g⟩ = g := by rw [Vec3.norm_zzc]; exact abs_of_pos hg
  have hzb : normalized ⟨0, 0, g⟩ = (⟨0, 0, 1⟩ : Vec3) := by
    rw [normalized, hng]; simp [div_self hg.ne']
  have hacc : (CascadedController.init ⟨m, g, inertia⟩ rm thrust_project_z
      ref0).accel_des t s0 = ⟨0, 0, g⟩ := by
    simp [CascadedController.accel_des, CascadedController.init, ref0, s0]
  have href : (CascadedController.init ⟨m, g, inertia⟩ rm thrust_project_z
      ref0).ref = ref0 := rfl
  have hmet : (CascadedController.init ⟨m, g, inertia⟩ rm thrust_project_z
      ref0).rot_metric = rm := rfl
  have hufp : (CascadedController.init ⟨m, g, inertia⟩ rm thrust_project_z
      ref0).u_f = thrust_project_z := rfl
  have hmod : (CascadedController.init ⟨m, g, inertia⟩ rm thrust_project_z
      ref0).model = ⟨m, g, inertia⟩ := rfl
  have hu : thrust_project_z ⟨0, 0, g⟩ Rot.id = g := by
    simp [thrust_project_z, e3]
  have hjerk : ref0.jerk t = 0 := rfl
  have hsnap : ref0.snap t = 0 := rfl
  have hyaw : ref0.yaw t = 0 := rfl
  have hyv : ref0.yawvel t = 0 := rfl
  have hya : ref0.yawacc t = 0 := rfl
  have hs1 : s0.rot = Rot.id := rfl
  have hs2 : s0.ang = 0 := rfl
  simp [CascadedController.response, flatness_inner, zdotdes, zddotdes,
    torque_from_aa, hacc, href, hmet, hufp, hmod, hzb, rot_zyx_001, hu, hrm, hgxx,
    hjerk, hsnap, hyaw, hyv, hya, hs1, hs2, e1, e2]

/-- C1: in the hover scenario — zero state with identity attitude, all-zero
constant reference, `mass = 1`, `g = 9.81`, thrust policy `thrust_project_z`,
a rotation metric that vanishes on aligned rotations (and the
`get_xdot_xddot` collaborator returning the zero derivatives that the spec
forces for a constant body x-axis) — `CascadedController.response` returns
thrust `9.81 = mass·g` and torque `(0, 0, 0)`. -/
theorem hover_equilibrium (gxx : XdotFun) (rm : Rot → Rot → Vec3)
    (inertia : Mat3) (t : ℝ) (hrm : ∀ r, rm r r = 0)
    (hgxx : gxx 0 0 ⟨1, 0, 0⟩ ⟨0, 0, 1⟩ 0 0 = (0, 0)) :
    CascadedController.response gxx
      (CascadedController.init ⟨1, 9.81, inertia⟩ rm thrust_project_z ref0) t s0 =
      ⟨9.81, 0⟩ := by
  have h := hover_general gxx rm 1 9.81 inertia t (by norm_num) hrm hgxx
  simpa using h

/-- Witness for C1: the hypotheses of `hover_equilibrium` hold for the zero
rotation metric and the constant-zero `get_xdot_xddot`. -/
theorem hover_equilibrium_witness :
    (∀ r, rm0 r r = (0 : Vec3)) ∧
    (gxx0 0 0 ⟨1, 0, 0⟩ ⟨0, 0, 1⟩ 0 0 = ((0 : Vec3), (0 : Vec3))) ∧
    CascadedController.response gxx0
      (CascadedController.init ⟨1, 9.81, Mat3.eye⟩ rm0 thrust_project_z ref0) 0 s0 =
      ⟨9.81, 0⟩ :=
  ⟨fun _ => rfl, rfl,
    hover_equilibrium gxx0 rm0 Mat3.eye 0 (fun _ => rfl) rfl⟩

end

end Quadsim
